import Mathlib

/-!
Verification of the reconciliation engine of a Terraform provider for Proxmox.

This file gives a shallow embedding, in Lean, of the lifecycle and diff logic
of the provider (files proxmox/provider/lxc_resource.go and
proxmox/provider/vm_resource.go) and proves properties of that embedding.

Modelling conventions:
  * Go `map[string]interface{}` device maps (pveapi.QemuDevice) are embedded
    as association lists from keys to `GoVal` (string or int values); a missing
    key reads as `none`, mirroring Go's nil interface zero value.  Comparing a
    missing key with the empty string is inequality, exactly as a nil Go
    interface compares unequal to an interface holding `""`.
  * Remote API interactions are embedded as explicit environments holding the
    responses the remote platform gives to each call, and functions return the
    sequence (trace) of calls they issue together with their outcome.
  * Unbounded loops in the source (the create retry loop, the agent poll loop)
    are embedded with an explicit fuel argument; a `none` / timeout result
    means the loop has not terminated within that many iterations.
  * Values that are string-typed in every execution of the repository (device
    map entries such as "volume", "storage", "size", "macaddr") are read as
    strings; a non-string value in those positions makes the Go code panic on
    a type assertion and is outside the embedding.
-/

/-- A Go interface value stored in a device map: either a string or an int. -/
inductive GoVal where
  | str (s : String)
  | int (n : Int)
  deriving DecidableEq, Repr

/-- A pveapi.QemuDevice: a string-keyed map of Go values, as an association
list.  A lookup of a missing key yields `none` (Go: the nil interface). -/
abbrev QemuDevice := List (String × GoVal)

/-- Indexing a QemuDevice, Go `disk[k]`: `none` models the nil interface
returned for a missing key (or for indexing a nil map). -/
def devGet (d : QemuDevice) (k : String) : Option GoVal :=
  (d.find? (fun p => p.1 = k)).map (fun p => p.2)

/-- A pveapi.QemuDevices: an int-keyed map of devices, as an association list. -/
abbrev QemuDevices := List (Int × QemuDevice)

/-- Indexing a QemuDevices map, Go `disks[key]` with its `ok` flag. -/
def devsGet (ds : QemuDevices) (k : Int) : Option QemuDevice :=
  (ds.find? (fun p => p.1 = k)).map (fun p => p.2)

/-- diskSlotName from lxc_resource.go (lines 958-968): the slot name of a
device.  The type defaults to "mp" when absent, non-string or empty; a device
without an int "slot" entry names the container root slot "rootfs". -/
def diskSlotName (disk : QemuDevice) : String :=
  let diskType :=
    match devGet disk "type" with
    | some (.str s) => if s = "" then "mp" else s
    | _ => "mp"
  match devGet disk "slot" with
  | some (.int n) => diskType ++ toString n
  | _ => "rootfs"

/-- The delete-pass marking condition of applyLxcDiskChanges (lxc_resource.go
lines 853-862): a previous disk at `key` is appended to the delete list iff
its desired counterpart is not slot-named "rootfs" and (the counterpart is
absent, or its "volume" entry is not the empty string and differs from the
previous one's, or its "slot" entry differs from the previous one's). -/
def lxcDeleteMarked (newDisks : QemuDevices) (key : Int) (prevDisk : QemuDevice) : Bool :=
  match devsGet newDisks key with
  | some newDisk =>
      if diskSlotName newDisk = "rootfs" then false
      else
        decide ((devGet newDisk "volume" ≠ some (GoVal.str "") ∧
                 devGet prevDisk "volume" ≠ devGet newDisk "volume") ∨
                devGet prevDisk "slot" ≠ devGet newDisk "slot")
  | none => true

/-- The disks marked for deletion by the delete pass, in iteration order. -/
def lxcDeleteDisks (prevDisks newDisks : QemuDevices) : List QemuDevice :=
  (prevDisks.filter (fun p => lxcDeleteMarked newDisks p.1 p.2)).map (fun p => p.2)

/-- The slot names joined into the single bulk "delete" parameter. -/
def lxcDeleteKeys (prevDisks newDisks : QemuDevices) : List String :=
  (lxcDeleteDisks prevDisks newDisks).map diskSlotName

/-- The in-place merge the create pass performs on a desired disk that has a
previous counterpart (lxc_resource.go lines 887-894): every key of the
previous disk that is absent from the desired disk is copied over. -/
def mergeDevice (newDisk prevDisk : QemuDevice) : QemuDevice :=
  newDisk ++ prevDisk.filter (fun p => (devGet newDisk p.1).isNone)

/-- One entry of the create/replace pass (lxc_resource.go lines 883-899): a
desired disk produces a bulk-create parameter iff it has no previous
counterpart, or its (merged) "slot" entry differs from the previous one's.
The parameter name is the slot name of the desired disk before the merge. -/
def lxcCreateEntry (prevDisks : QemuDevices) (key : Int) (newDisk : QemuDevice) :
    Option (String × QemuDevice) :=
  match devsGet prevDisks key with
  | none => some (diskSlotName newDisk, newDisk)
  | some prevDisk =>
      let merged := mergeDevice newDisk prevDisk
      if devGet merged "slot" ≠ devGet prevDisk "slot" then
        some (diskSlotName newDisk, merged)
      else none

/-- The parameters of the bulk attach/create call, in iteration order. -/
def lxcCreateParams (prevDisks newDisks : QemuDevices) : List (String × QemuDevice) :=
  newDisks.filterMap (fun p => lxcCreateEntry prevDisks p.1 p.2)

/-- The desired disk set after the create pass's in-place merges: each desired
disk with a previous counterpart has inherited the counterpart's missing keys
(Go maps are mutated in place, so the later passes observe the merge). -/
def mergedNewDisks (prevDisks newDisks : QemuDevices) : QemuDevices :=
  newDisks.map (fun p =>
    match devsGet prevDisks p.1 with
    | some prevDisk => (p.1, mergeDevice p.2 prevDisk)
    | none => p)

/-- A remote mutation call issued by applyLxcDiskChanges. -/
inductive LxcCall where
  | setConfigDelete (keys : List String)
  | setConfigCreate (params : List (String × QemuDevice))
  | moveDisk (slotName storage : String)
  | resize (diskName : String) (size : GoVal)
  | getConfig
  deriving DecidableEq, Repr

/-- processDiskResize from lxc_resource.go (lines 970-979): issue a resize
call iff the desired disk has a "size" entry differing from the previous
disk's. -/
def processDiskResize (prevDisk newDisk : QemuDevice) (diskName : String) : List LxcCall :=
  match devGet newDisk "size" with
  | some newSize =>
      if some newSize ≠ devGet prevDisk "size" then [.resize diskName newSize] else []
  | none => []

/-- The move and resize passes of applyLxcDiskChanges (lines 913-938), over
the merged desired set: for each previous disk with a desired counterpart, a
move call when the counterpart's "storage" entry is a string differing from
the previous one's, then a resize call when sizes differ. -/
def lxcMoveResizeCalls (prevDisks newDisks : QemuDevices) : List LxcCall :=
  prevDisks.flatMap (fun p =>
    match devsGet newDisks p.1 with
    | none => []
    | some newDisk =>
        let diskName := diskSlotName newDisk
        let moves :=
          match devGet newDisk "storage" with
          | some (.str newStorage) =>
              if some (GoVal.str newStorage) ≠ devGet p.2 "storage" then
                [LxcCall.moveDisk (diskSlotName p.2) newStorage]
              else []
          | _ => []
        moves ++ processDiskResize p.2 newDisk diskName)

/-- applyLxcDiskChanges from lxc_resource.go (lines 850-956), embedded as the
sequence of remote calls it issues when the client reports no errors: an
optional single bulk delete call naming the marked slots, then an optional
single bulk create call, then the move and resize calls, then the re-read of
the remote configuration.  A client error aborts the remaining calls, so the
issued trace of a failing run is a prefix of this one. -/
def applyLxcDiskChanges (prevDisks newDisks : QemuDevices) : List LxcCall :=
  (if (lxcDeleteKeys prevDisks newDisks).isEmpty then []
   else [.setConfigDelete (lxcDeleteKeys prevDisks newDisks)]) ++
  (if (lxcCreateParams prevDisks newDisks).isEmpty then []
   else [.setConfigCreate (lxcCreateParams prevDisks newDisks)]) ++
  lxcMoveResizeCalls prevDisks (mergedNewDisks prevDisks newDisks) ++ [.getConfig]

/-- Recognizer for the bulk delete call. -/
def isDeleteCall : LxcCall → Bool
  | .setConfigDelete _ => true
  | _ => false

/-- Recognizer for the bulk create/attach call. -/
def isCreateCall : LxcCall → Bool
  | .setConfigCreate _ => true
  | _ => false

/-- The delete-marking condition exactly as the specification words it, with
no root-slot exception: marked iff the counterpart is absent, or specifies a
different (non-empty) backing volume, or a different positional slot value. -/
def claimedDeleteCond (newDisks : QemuDevices) (key : Int) (prevDisk : QemuDevice) : Bool :=
  match devsGet newDisks key with
  | none => true
  | some newDisk =>
      decide ((devGet newDisk "volume" ≠ some (GoVal.str "") ∧
               devGet prevDisk "volume" ≠ devGet newDisk "volume") ∨
              devGet prevDisk "slot" ≠ devGet newDisk "slot")

/-- Whether the desired counterpart at `key` exists and is slot-named
"rootfs" (the protected root slot). -/
def counterpartIsRootfs (newDisks : QemuDevices) (key : Int) : Bool :=
  match devsGet newDisks key with
  | some newDisk => diskSlotName newDisk = "rootfs"
  | none => false

/-- An error reported by a remote create or clone call.  A `collision` is an
error whose message matches the already-exists pattern the source tests with
a regular expression (for direct LXC creation, for direct VM creation and
for VM cloning each with its own pattern); `other` is any other error. -/
inductive CreateErr where
  | collision (msg : String)
  | other (msg : String)
  deriving DecidableEq, Repr

/-- The remote platform's response to one create/clone attempt. -/
inductive CreateResp where
  | ok
  | err (e : CreateErr)
  deriving DecidableEq, Repr

/-- Outcome of the create loop: the guest was created with a given id after a
number of attempts, or a user-visible error was surfaced. -/
inductive CreateOutcome where
  | created (id : Int) (attempts : Nat)
  | failed (msg : String) (attempts : Nat)
  deriving DecidableEq, Repr

/-- getIDToUse from vm_resource.go (lines 1302-1315): a known planned id is
used as-is; an unknown one is answered by the platform's next-free-id query,
whose response (possibly an error) the environment supplies. -/
def getIDToUse (plannedId : Option Int) (nextIdResp : Except String Int) :
    Except String Int :=
  match plannedId with
  | some pid => .ok pid
  | none => nextIdResp

/-- Environment of the LXC create loop: the next-free-id responses and the
CreateLxc responses, indexed by attempt number. -/
structure LxcCreateEnv where
  nextIdResp : Nat → Except String Int
  createResp : Nat → CreateResp

/-- The create retry loop of lxcResource.Create (lxc_resource.go lines
339-368): each attempt resolves an id via getIDToUse, then issues CreateLxc.
An error matching the already-exists pattern restarts the loop when the
planned id was unknown (auto-assigned); any other failure, or a collision
with a user-supplied id, surfaces the error.  The fuel argument bounds the
number of iterations observed; `none` means the loop is still running after
that many attempts (the source loop itself has no bound). -/
def lxcCreateLoop (plannedId : Option Int) (env : LxcCreateEnv) :
    Nat → Nat → Option CreateOutcome
  | 0, _ => none
  | fuel + 1, attempt =>
    match getIDToUse plannedId (env.nextIdResp attempt) with
    | .error msg => some (.failed msg (attempt + 1))
    | .ok id =>
      match env.createResp attempt with
      | .ok => some (.created id (attempt + 1))
      | .err (.collision msg) =>
          if plannedId.isNone then lxcCreateLoop plannedId env fuel (attempt + 1)
          else some (.failed msg (attempt + 1))
      | .err (.other msg) => some (.failed msg (attempt + 1))

/-- Environment of the VM create loop: next-free-id responses, direct create
responses, the clone-source name lookup response, clone responses, the
post-clone config update responses (returning whether a reboot is required),
and stop/start responses, indexed by attempt number where applicable. -/
structure VmCreateEnv where
  nextIdResp : Nat → Except String Int
  createResp : Nat → CreateResp
  nameLookupResp : Except String Int
  cloneResp : Nat → CreateResp
  updateResp : Nat → Except String Bool
  stopResp : Nat → Except String Unit
  startResp : Nat → Except String Unit

/-- Clone-source resolution in vmResource.Create (vm_resource.go lines
489-503): a clone reference parsing as an integer is used as the source id;
otherwise the platform's by-name lookup is consulted, and its failure is a
hard user error naming the missing template. -/
def resolveCloneSource (clone : String) (env : VmCreateEnv) : Except String Int :=
  match clone.toInt? with
  | some cloneID => .ok cloneID
  | none =>
    match env.nameLookupResp with
    | .ok srcId => .ok srcId
    | .error _ =>
        .error ("Could not clone VM, no template with ID/name could be found: " ++ clone)

/-- The create retry loop of vmResource.Create (vm_resource.go lines
454-555): with no clone source, a direct create; with a clone source, clone
resolution, the clone call, the follow-up config update and an optional
stop/start reboot.  A create or clone error matching the already-exists
pattern restarts the loop when the planned id was unknown; all other
failures surface.  Fuel as in lxcCreateLoop. -/
def vmCreateLoop (plannedId : Option Int) (clone : Option String) (env : VmCreateEnv) :
    Nat → Nat → Option CreateOutcome
  | 0, _ => none
  | fuel + 1, attempt =>
    match getIDToUse plannedId (env.nextIdResp attempt) with
    | .error msg => some (.failed msg (attempt + 1))
    | .ok id =>
      match clone with
      | none =>
        match env.createResp attempt with
        | .ok => some (.created id (attempt + 1))
        | .err (.collision msg) =>
            if plannedId.isNone then vmCreateLoop plannedId clone env fuel (attempt + 1)
            else some (.failed msg (attempt + 1))
        | .err (.other msg) => some (.failed msg (attempt + 1))
      | some cloneRef =>
        match resolveCloneSource cloneRef env with
        | .error msg => some (.failed msg (attempt + 1))
        | .ok _ =>
          match env.cloneResp attempt with
          | .err (.collision msg) =>
              if plannedId.isNone then vmCreateLoop plannedId clone env fuel (attempt + 1)
              else some (.failed msg (attempt + 1))
          | .err (.other msg) => some (.failed msg (attempt + 1))
          | .ok =>
            match env.updateResp attempt with
            | .error msg => some (.failed msg (attempt + 1))
            | .ok reboot =>
              if reboot then
                match env.stopResp attempt with
                | .error msg => some (.failed msg (attempt + 1))
                | .ok _ =>
                  match env.startResp attempt with
                  | .error msg => some (.failed msg (attempt + 1))
                  | .ok _ => some (.created id (attempt + 1))
              else some (.created id (attempt + 1))

/-- A concrete environment for exercising the create loop: allocation yields
ids 100, 101, ..., the first create attempt collides, the second succeeds. -/
def lxcEnvW : LxcCreateEnv where
  nextIdResp := fun n => .ok (100 + n)
  createResp := fun n => if n = 0 then .err (.collision "CT 100 already exists") else .ok

/-- A concrete environment in which every create attempt collides. -/
def collideEnv : LxcCreateEnv where
  nextIdResp := fun n => .ok (100 + n)
  createResp := fun _ => .err (.collision "CT already exists")

/-- A remote call issued by a Delete lifecycle operation. -/
inductive GuestCall where
  | listGuests
  | getState
  | stopVm
  | deleteVm
  deriving DecidableEq, Repr

/-- Outcome of a Delete lifecycle operation: success or a surfaced error. -/
inductive OpResult where
  | ok
  | err (msg : String)
  deriving DecidableEq, Repr

/-- Environment of lxcResource.Delete: the guest listing response, the
"status" field of the GetVmState response (none when the field is absent),
and the stop and delete responses. -/
structure LxcDeleteEnv where
  listResp : Except String (List Int)
  stateStatus : Except String (Option GoVal)
  stopResp : Except String Unit
  deleteResp : Except String Unit

/-- lxcResource.Delete from lxc_resource.go (lines 620-695): list guests; if
the id is not present, return successfully with no further calls; otherwise
read the guest state, require a string "status" field, stop the guest only
when that status is "running", then delete. -/
def lxcDelete (vmid : Int) (env : LxcDeleteEnv) : OpResult × List GuestCall :=
  match env.listResp with
  | .error m => (.err m, [.listGuests])
  | .ok ids =>
    if ids.contains vmid then
      match env.stateStatus with
      | .error m => (.err m, [.listGuests, .getState])
      | .ok v =>
        match v with
        | some (.str status) =>
          if status = "running" then
            match env.stopResp with
            | .error m => (.err m, [.listGuests, .getState, .stopVm])
            | .ok _ =>
              match env.deleteResp with
              | .error m => (.err m, [.listGuests, .getState, .stopVm, .deleteVm])
              | .ok _ => (.ok, [.listGuests, .getState, .stopVm, .deleteVm])
          else
            match env.deleteResp with
            | .error m => (.err m, [.listGuests, .getState, .deleteVm])
            | .ok _ => (.ok, [.listGuests, .getState, .deleteVm])
        | _ => (.err "status field in VM state was not a string", [.listGuests, .getState])
    else
      (.ok, [.listGuests])

/-- Environment of vmResource.Delete: the guest listing response, the remote
guest's power status (part of remote state, never queried by this code
path), and the stop and delete responses. -/
structure VmDeleteEnv where
  listResp : Except String (List Int)
  status : String
  stopResp : Except String Unit
  deleteResp : Except String Unit

/-- vmResource.Delete from vm_resource.go (lines 767-822): list guests; if
the id is not present, return successfully with no further calls; otherwise
unconditionally stop the guest (no state query) and then delete it. -/
def vmDelete (vmid : Int) (env : VmDeleteEnv) : OpResult × List GuestCall :=
  match env.listResp with
  | .error m => (.err m, [.listGuests])
  | .ok ids =>
    if ids.contains vmid then
      match env.stopResp with
      | .error m => (.err m, [.listGuests, .stopVm])
      | .ok _ =>
        match env.deleteResp with
        | .error m => (.err m, [.listGuests, .stopVm, .deleteVm])
        | .ok _ => (.ok, [.listGuests, .stopVm, .deleteVm])
    else
      (.ok, [.listGuests])

/-- A concrete LXC delete environment whose guest list lacks id 100. -/
def lxcDelEnvW : LxcDeleteEnv where
  listResp := .ok [101, 205]
  stateStatus := .ok (some (.str "running"))
  stopResp := .ok ()
  deleteResp := .ok ()

/-- A concrete VM delete environment whose guest list lacks id 100. -/
def vmDelEnvW : VmDeleteEnv where
  listResp := .ok [101, 205]
  status := "running"
  stopResp := .ok ()
  deleteResp := .ok ()

/-- A concrete VM delete environment holding an existing, stopped guest. -/
def vmDelStoppedEnv : VmDeleteEnv where
  listResp := .ok [100]
  status := "stopped"
  stopResp := .ok ()
  deleteResp := .ok ()

/-- A concrete LXC delete environment holding an existing, stopped guest. -/
def lxcDelStoppedEnv : LxcDeleteEnv where
  listResp := .ok [100]
  stateStatus := .ok (some (.str "stopped"))
  stopResp := .ok ()
  deleteResp := .ok ()

/-- A concrete LXC delete environment holding an existing, running guest. -/
def lxcDelRunningEnv : LxcDeleteEnv where
  listResp := .ok [100]
  stateStatus := .ok (some (.str "running"))
  stopResp := .ok ()
  deleteResp := .ok ()

/-- A Terraform framework value (types.String, types.Int64, types.Bool,
types.Object): unknown, null, or a known value. -/
inductive TF (α : Type) where
  | unknown
  | null
  | val (a : α)
  deriving DecidableEq, Repr

/-- The ValueString/ValueInt64-style accessor: a known value, or the zero
value supplied for null/unknown. -/
def tfValueD {α : Type} (t : TF α) (d : α) : α :=
  match t with
  | .val a => a
  | _ => d

/-- rootfsModel from lxc_resource.go (lines 62-66): the rootfs attachment of
a container as Terraform state. -/
structure rootfsModel where
  volume : TF String
  storage : TF String
  size : TF String
  deriving DecidableEq, Repr

/-- rootfsModel.readFromAPIConfig from lxc_resource.go (lines 76-93), as a
function from the remote device map to a fresh (all-null) model: a non-empty
"volume" entry sets the volume, its prefix before ":" sets the storage, and
a numeric suffix sets the size in whole gigabytes; otherwise a "storage"
entry sets the storage; a "size" entry always overrides the size.  Entries
are string-valued (a non-string value panics in Go on a type assertion). -/
def rootfsModel.readFromAPIConfig (c : QemuDevice) : rootfsModel :=
  let m0 : rootfsModel := { volume := .null, storage := .null, size := .null }
  let m1 :=
    match devGet c "volume" with
    | some (.str s) =>
      if s = "" then
        match devGet c "storage" with
        | some (.str st) => { m0 with storage := TF.val st }
        | _ => m0
      else
        let parts := s.splitOn ":"
        let m := { m0 with volume := TF.val s, storage := TF.val (parts.headD "") }
        if parts.length = 2 then
          match (parts.getD 1 "").toInt? with
          | some size => { m with size := TF.val (toString size ++ "G") }
          | none => m
        else m
    | _ =>
      match devGet c "storage" with
      | some (.str st) => { m0 with storage := TF.val st }
      | _ => m0
  match devGet c "size" with
  | some (.str sz) => { m1 with size := TF.val sz }
  | _ => m1

/-- lxcNetModel from lxc_resource.go (lines 106-111). -/
structure lxcNetModel where
  name : TF String
  bridge : TF String
  ip : TF String
  gw : TF String
  deriving DecidableEq, Repr

/-- lxcNetModel.readFromAPIConfig from lxc_resource.go (lines 122-135): each
present entry sets its field; the gateway only when non-empty. -/
def lxcNetModel.readFromAPIConfig (c : QemuDevice) : lxcNetModel :=
  let m : lxcNetModel := { name := .null, bridge := .null, ip := .null, gw := .null }
  let m := match devGet c "name" with
    | some (.str s) => { m with name := TF.val s }
    | _ => m
  let m := match devGet c "bridge" with
    | some (.str s) => { m with bridge := TF.val s }
    | _ => m
  let m := match devGet c "ip" with
    | some (.str s) => { m with ip := TF.val s }
    | _ => m
  match devGet c "gw" with
  | some (.str s) => if s = "" then m else { m with gw := TF.val s }
  | _ => m

/-- lxcResourceModel from lxc_resource.go (lines 43-60): the Terraform state
record of one container. -/
structure lxcResourceModel where
  node : TF String
  vmid : TF Int
  status : TF String
  ostemplate : TF String
  unprivileged : TF Bool
  ostype : TF String
  hostname : TF String
  password : TF String
  sshPublicKeys : TF String
  rootFs : TF rootfsModel
  net : TF lxcNetModel
  deriving DecidableEq, Repr

/-- The fields of pveapi.ConfigLxc read by UpdateLXCResourceModelFromAPI. -/
structure ConfigLxc where
  osType : String
  hostname : String
  unprivileged : Bool
  rootFs : QemuDevice
  networks : QemuDevices
  deriving DecidableEq, Repr

/-- The LXC state-mask bit selecting configuration (lxc_resource.go 146-153). -/
def LXCStateConfig : Nat := 1

/-- The LXC state-mask bit selecting power status. -/
def LXCStateStatus : Nat := 2

/-- The LXC state mask selecting everything. -/
def LXCStateEverything : Nat := 0xff

/-- Environment of UpdateLXCResourceModelFromAPI: the configuration fetch
response, the node name the API fills into the VmRef during that fetch, and
the "status" field of the guest state response. -/
structure LxcReadEnv where
  configResp : Except String ConfigLxc
  vmrNode : String
  stateStatus : Except String (Option GoVal)

/-- Extraction of the "status" field from a GetVmState response: an API
error propagates, a non-string (or absent) field is the error both readers
raise, a string field is the status. -/
def statusFromState (resp : Except String (Option GoVal)) : Except String String :=
  match resp with
  | .error e => .error e
  | .ok (some (.str s)) => .ok s
  | .ok _ => .error "status field in VM state was not a string"

/-- The configuration-bit writes of UpdateLXCResourceModelFromAPI
(lxc_resource.go lines 734-769): node and vmid from the VmRef, ostype,
hostname and the privilege flag from the configuration, the rootfs object
null when the remote rootfs map is empty and otherwise read from it, and the
net object null when there are no networks and otherwise read from the
network at key 0. -/
def lxcApplyConfig (vmid : Int) (vmrNode : String) (config : ConfigLxc)
    (model : lxcResourceModel) : lxcResourceModel :=
  { model with
    node := TF.val vmrNode
    vmid := TF.val vmid
    ostype := TF.val config.osType
    hostname := TF.val config.hostname
    unprivileged := TF.val config.unprivileged
    rootFs := if config.rootFs.isEmpty then TF.null
              else TF.val (rootfsModel.readFromAPIConfig config.rootFs)
    net := if config.networks.isEmpty then TF.null
           else TF.val (lxcNetModel.readFromAPIConfig ((devsGet config.networks 0).getD [])) }

/-- The configuration fetch of UpdateLXCResourceModelFromAPI (lxc_resource.go
lines 712-718): performed only under the config bit. -/
def lxcConfigOpt (env : LxcReadEnv) (sm : Nat) : Except String (Option ConfigLxc) :=
  if sm &&& LXCStateConfig ≠ 0 then env.configResp.map some else .ok none

/-- The status fetch of UpdateLXCResourceModelFromAPI (lxc_resource.go lines
720-732): performed only under the status bit. -/
def lxcStatusOpt (env : LxcReadEnv) (sm : Nat) : Except String (Option String) :=
  if sm &&& LXCStateStatus ≠ 0 then (statusFromState env.stateStatus).map some else .ok none

/-- UpdateLXCResourceModelFromAPI from lxc_resource.go (lines 704-778):
fetch the configuration when the config bit is set, fetch and validate the
status when the status bit is set (either fetch error propagates before any
model write, configuration first), then write the configuration field group
and the status field according to the mask. -/
def UpdateLXCResourceModelFromAPI (vmid : Int) (env : LxcReadEnv)
    (model : lxcResourceModel) (sm : Nat) : Except String lxcResourceModel :=
  match lxcConfigOpt env sm with
  | .error e => .error e
  | .ok config? =>
    match lxcStatusOpt env sm with
    | .error e => .error e
    | .ok status? =>
      let m1 := match config? with
        | some config => lxcApplyConfig vmid env.vmrNode config model
        | none => model
      let m2 := match status? with
        | some s => { m1 with status := TF.val s }
        | none => m1
      .ok m2

/-- virtioModel from vm_resource.go (lines 106-112): a VIRTIO disk slot as
Terraform state.  Sizes are whole gigabytes; they are non-negative in every
execution (the remote kibibyte size is unsigned), so they are embedded as
naturals. -/
structure virtioModel where
  media : TF String
  format : TF String
  size : TF Nat
  storage : TF String
  deriving DecidableEq, Repr

/-- The fields of pveapi.QemuVirtIODisk used by the translator: format,
storage and the size in kibibytes. -/
structure QemuVirtIODisk where
  format : String
  storage : String
  sizeInKibibytes : Nat
  deriving DecidableEq, Repr

/-- A pveapi.QemuVirtIOStorage carrying a disk.  The cdrom variant of the
remote struct is not constructed by this provider's translator and reading
it would dereference a nil Disk pointer, so it is outside the embedding. -/
structure QemuVirtIOStorage where
  disk : QemuVirtIODisk
  deriving DecidableEq, Repr

/-- virtioModel.readFromAPIConfig from vm_resource.go (lines 123-128): media
is always "disk", storage and format copy over, and the size is the
kibibyte size divided by 1024*1024 (integer division, flooring to whole
gigabytes). -/
def virtioModel.readFromAPIConfig (c : QemuVirtIOStorage) : virtioModel :=
  { media := TF.val "disk"
    storage := TF.val c.disk.storage
    size := TF.val (c.disk.sizeInKibibytes / (1024 * 1024))
    format := TF.val c.disk.format }

/-- virtioModel.writeToAPIConfig from vm_resource.go (lines 130-136): the
remote disk takes the model's format and storage and a kibibyte size of
size * 1024 * 1024. -/
def virtioModel.writeToAPIConfig (m : virtioModel) : QemuVirtIOStorage :=
  { disk := { format := tfValueD m.format ""
              storage := tfValueD m.storage ""
              sizeInKibibytes := tfValueD m.size 0 * 1024 * 1024 } }

/-- A pveapi.IsoFile: storage and file of a mounted ISO. -/
structure IsoFile where
  storage : String
  file : String
  deriving DecidableEq, Repr

/-- A pveapi.QemuIdeStorage carrying a cdrom with an ISO (the only shape the
VM reader dereferences; a nil CdRom or Iso panics in Go). -/
structure QemuIdeStorage where
  isoStorage : String
  isoFile : String
  deriving DecidableEq, Repr

/-- ideModel from vm_resource.go (lines 138-141). -/
structure ideModel where
  media : TF String
  file : TF String
  deriving DecidableEq, Repr

/-- ideModel.readFromAPIConfig from vm_resource.go (lines 150-153): media is
always "cdrom" and the file is "storage:file". -/
def ideModel.readFromAPIConfig (c : QemuIdeStorage) : ideModel :=
  { media := TF.val "cdrom", file := TF.val (c.isoStorage ++ ":" ++ c.isoFile) }

/-- vmNetModel from vm_resource.go (lines 173-177). -/
structure vmNetModel where
  model : TF String
  bridge : TF String
  macAddress : TF String
  deriving DecidableEq, Repr

/-- vmNetModel.readFromAPIConfig from vm_resource.go (lines 187-197): each
present entry sets its field. -/
def vmNetModel.readFromAPIConfig (c : QemuDevice) : vmNetModel :=
  let m : vmNetModel := { model := .null, bridge := .null, macAddress := .null }
  let m := match devGet c "model" with
    | some (.str s) => { m with model := TF.val s }
    | _ => m
  let m := match devGet c "bridge" with
    | some (.str s) => { m with bridge := TF.val s }
    | _ => m
  match devGet c "macaddr" with
  | some (.str s) => { m with macAddress := TF.val s }
  | _ => m

/-- vmResourceModel from vm_resource.go (lines 64-104).  The sixteen
virtio0..virtio15 object attributes are embedded as the list `virtio` and
the four ide0..ide3 attributes as the list `ide`. -/
structure vmResourceModel where
  node : TF String
  vmid : TF Int
  name : TF String
  description : TF String
  status : TF String
  agent : TF Bool
  clone : TF String
  sockets : TF Int
  cores : TF Int
  memory : TF Int
  ipv4Address : TF String
  net : TF vmNetModel
  virtio : List (TF virtioModel)
  ide : List (TF ideModel)
  deriving DecidableEq, Repr

/-- The sixteen Disk_0..Disk_15 fields of pveapi.QemuVirtIODisks, as a list. -/
structure QemuVirtIODisks where
  disks : List (Option QemuVirtIOStorage)
  deriving DecidableEq, Repr

/-- The four Disk_0..Disk_3 fields of pveapi.QemuIdeDisks, as a list. -/
structure QemuIdeDisks where
  disks : List (Option QemuIdeStorage)
  deriving DecidableEq, Repr

/-- A pveapi.QemuStorages: the optional ide and virtio disk banks. -/
structure QemuStorages where
  ide : Option QemuIdeDisks
  virtio : Option QemuVirtIODisks
  deriving DecidableEq, Repr

/-- The fields of pveapi.ConfigQemu read by UpdateVMResourceModelFromAPI. -/
structure ConfigQemu where
  node : String
  vmID : Int
  name : String
  description : String
  agent : Int
  qemuSockets : Int
  qemuCores : Int
  memory : Int
  qemuNetworks : QemuDevices
  disks : Option QemuStorages
  deriving DecidableEq, Repr

/-- The VM state-mask bit selecting configuration (vm_resource.go 209-217). -/
def VMStateConfig : Nat := 1

/-- The VM state-mask bit selecting power status. -/
def VMStateStatus : Nat := 2

/-- The VM state-mask bit selecting the network-derived address. -/
def VMStateNet : Nat := 4

/-- The VM state mask selecting everything. -/
def VMStateEverything : Nat := 0xff

/-- Whether a character is matched by the hex-digit class of the MAC
regular expression in vm_resource.go (line 863). -/
def isHexChar (c : Char) : Bool :=
  (('0' ≤ c) && (c ≤ '9')) || (('a' ≤ c) && (c ≤ 'f')) || (('A' ≤ c) && (c ≤ 'F'))

/-- Whether seventeen characters have the shape of a MAC address: six hex
pairs separated by colons, the fixed-length pattern of that expression. -/
def isMacChars : List Char → Bool
  | [a, b, c1, d, e, c2, f, g, c3, h, i, c4, j, k, c5, m, n] =>
      ([a, b, d, e, f, g, h, i, j, k, m, n].all isHexChar) &&
        ([c1, c2, c3, c4, c5].all (fun c => c = ':'))
  | _ => false

/-- The leftmost seventeen-character window matching the MAC pattern. -/
def macFindAux : List Char → Option (List Char)
  | [] => none
  | c :: rest =>
      if isMacChars ((c :: rest).take 17) then some ((c :: rest).take 17)
      else macFindAux rest

/-- Go regexp FindString for the fixed-length MAC pattern: the leftmost
match, or the empty string when there is none. -/
def macFindString (s : String) : String :=
  match macFindAux s.data with
  | some l => String.mk l
  | none => ""

/-- An address reported by the guest agent: its global-unicast and IPv4
classification (net.IP.IsGlobalUnicast, To4 being non-nil) and its string
form. -/
structure IpAddress where
  isGlobalUnicast : Bool
  isIPv4 : Bool
  addrString : String
  deriving DecidableEq, Repr

/-- A network interface reported by the guest agent. -/
structure AgentIface where
  macAddress : String
  ipAddresses : List IpAddress
  deriving DecidableEq, Repr

/-- One response of the agent network-interfaces query. -/
inductive AgentQueryResult where
  | err (msg : String)
  | ok (ifaces : List AgentIface)
  deriving DecidableEq, Repr

/-- Whether a pattern is an initial segment of a character list. -/
def listStartsWith : List Char → List Char → Bool
  | [], _ => true
  | _ :: _, [] => false
  | a :: as, b :: bs => a = b && listStartsWith as bs

/-- Whether a pattern occurs as a contiguous run inside a character list. -/
def listContainsSub (l pat : List Char) : Bool :=
  match l with
  | [] => pat.isEmpty
  | _ :: rest => listStartsWith pat l || listContainsSub rest pat

/-- Whether an error message contains the retryable agent-not-running marker
(Go strings.Contains with the literal of vm_resource.go line 889). -/
def agentNotRunningErr (msg : String) : Bool :=
  listContainsSub msg.data ("500 QEMU guest agent is not running").data

/-- The interface scan of the poll loop (vm_resource.go lines 896-907): the
first global-unicast IPv4 address of an interface whose lowercased MAC
matches; an interface that matches but has no suitable address does not stop
the scan. -/
def scanIfaces (ifaces : List AgentIface) (mac : String) : Option String :=
  ifaces.findSome? (fun iface =>
    if iface.macAddress.toLower = mac then
      (iface.ipAddresses.find? (fun a => a.isGlobalUnicast && a.isIPv4)).map
        (fun a => a.addrString)
    else none)

/-- Outcome of the guest address poll: an address, a fatal query error, or
the overall deadline elapsing. -/
inductive PollResult where
  | found (ip : String)
  | fatal (msg : String)
  | timeout
  deriving DecidableEq, Repr

/-- The agent polling loop of UpdateVMResourceModelFromAPI (vm_resource.go
lines 879-921): each iteration queries the agent's interfaces; an error
containing the agent-not-running marker sleeps and retries, any other error
is fatal immediately; a successful response is scanned for an address and
returns it on a match, otherwise the loop sleeps and retries.  The fuel
argument is the number of iterations the five-minute deadline allows; fuel
running out is the deadline firing with the timeout error. -/
def pollLoop (query : Nat → AgentQueryResult) (mac : String) : Nat → Nat → PollResult
  | 0, _ => .timeout
  | fuel + 1, n =>
    match query n with
    | .err m => if agentNotRunningErr m then pollLoop query mac fuel (n + 1) else .fatal m
    | .ok ifaces =>
      match scanIfaces ifaces mac with
      | some ip => .found ip
      | none => pollLoop query mac fuel (n + 1)

/-- Environment of UpdateVMResourceModelFromAPI: the configuration fetch
response, the "status" field of the guest state response, the successive
agent query responses, and the number of poll iterations the deadline
allows. -/
structure VmReadEnv where
  configResp : Except String ConfigQemu
  stateStatus : Except String (Option GoVal)
  agentQuery : Nat → AgentQueryResult
  pollFuel : Nat

/-- The address-discovery section of UpdateVMResourceModelFromAPI
(vm_resource.go lines 860-923), entered when the net bit is set: it
dereferences the fetched configuration (a nil configuration - the net bit
without the config bit - panics in Go, embedded as an error), requires a
non-empty network set, extracts and lowercases the MAC of network 0, and
when a MAC is present and the agent flag is 1 runs the poll loop, whose
fatal and timeout outcomes become errors of the whole read. -/
def vmNetPoll (env : VmReadEnv) (config? : Option ConfigQemu) : Except String String :=
  match config? with
  | none => .error "runtime error: invalid memory address or nil pointer dereference"
  | some config =>
    if config.qemuNetworks.isEmpty then .ok ""
    else
      let net0 := (devsGet config.qemuNetworks 0).getD []
      let mac :=
        match devGet net0 "macaddr" with
        | some (.str s) => (macFindString s).toLower
        | _ => ""
      if mac ≠ "" ∧ config.agent = 1 then
        match pollLoop env.agentQuery mac env.pollFuel 0 with
        | .found ip => .ok ip
        | .fatal m => .error m
        | .timeout => .error "timeout waiting for agent to start"
      else .ok ""

/-- The configuration-bit writes of UpdateVMResourceModelFromAPI
(vm_resource.go lines 925-1090): node and vmid from the configuration, name
and description null when remotely empty, the agent flag as agent > 0,
sockets, cores and memory, the net object from network 0, the sixteen
virtio slots (all null when the disk banks are absent) and the four ide
slots likewise. -/
def vmApplyConfig (config : ConfigQemu) (model : vmResourceModel) : vmResourceModel :=
  { model with
    node := TF.val config.node
    vmid := TF.val config.vmID
    name := if config.name = "" then TF.null else TF.val config.name
    description := if config.description = "" then TF.null
                   else TF.val config.description
    agent := TF.val (decide (config.agent > 0))
    sockets := TF.val config.qemuSockets
    cores := TF.val config.qemuCores
    memory := TF.val config.memory
    net := if config.qemuNetworks.isEmpty then TF.null
           else TF.val (vmNetModel.readFromAPIConfig ((devsGet config.qemuNetworks 0).getD []))
    virtio :=
      match config.disks with
      | none => List.replicate 16 TF.null
      | some st =>
        match st.virtio with
        | none => List.replicate 16 TF.null
        | some v => v.disks.map (fun o =>
            match o with
            | none => TF.null
            | some c => TF.val (virtioModel.readFromAPIConfig c))
    ide :=
      match config.disks with
      | none => List.replicate 4 TF.null
      | some st =>
        match st.ide with
        | none => List.replicate 4 TF.null
        | some v => v.disks.map (fun o =>
            match o with
            | none => TF.null
            | some c => TF.val (ideModel.readFromAPIConfig c)) }

/-- The configuration fetch of UpdateVMResourceModelFromAPI (vm_resource.go
lines 838-844): performed only under the config bit. -/
def vmConfigOpt (env : VmReadEnv) (sm : Nat) : Except String (Option ConfigQemu) :=
  if sm &&& VMStateConfig ≠ 0 then env.configResp.map some else .ok none

/-- The status fetch of UpdateVMResourceModelFromAPI (vm_resource.go lines
846-858): performed only under the status bit. -/
def vmStatusOpt (env : VmReadEnv) (sm : Nat) : Except String (Option String) :=
  if sm &&& VMStateStatus ≠ 0 then (statusFromState env.stateStatus).map some else .ok none

/-- The address discovery of UpdateVMResourceModelFromAPI: performed only
under the net bit, over the configuration fetched under the config bit. -/
def vmIpv4Opt (env : VmReadEnv) (sm : Nat) (config? : Option ConfigQemu) :
    Except String String :=
  if sm &&& VMStateNet ≠ 0 then vmNetPoll env config? else .ok ""

/-- UpdateVMResourceModelFromAPI from vm_resource.go (lines 831-1105): fetch
the configuration when the config bit is set, fetch and validate the status
when the status bit is set, run address discovery when the net bit is set
(all errors propagate before any model write, in that order), then write the
configuration field group, the status field and the ipv4 address field
according to the mask (the address written null when discovery was skipped
or yielded nothing). -/
def UpdateVMResourceModelFromAPI (env : VmReadEnv) (model : vmResourceModel) (sm : Nat) :
    Except String vmResourceModel :=
  match vmConfigOpt env sm with
  | .error e => .error e
  | .ok config? =>
    match vmStatusOpt env sm with
    | .error e => .error e
    | .ok status? =>
      match vmIpv4Opt env sm config? with
      | .error e => .error e
      | .ok ipv4 =>
        let m1 := match config? with
          | some config => vmApplyConfig config model
          | none => model
        let m2 := match status? with
          | some s => { m1 with status := TF.val s }
          | none => m1
        let m3 :=
          if sm &&& VMStateNet ≠ 0 then
            { m2 with ipv4Address := if ipv4 ≠ "" then TF.val ipv4 else TF.null }
          else m2
        .ok m3

/-- Outcome of a Read lifecycle operation: the resource was removed from
tracked state, or the state was set to a model, or an error surfaced. -/
inductive ReadOutcome (α : Type) where
  | removed
  | updated (m : α)
  | errored (msg : String)
  deriving DecidableEq, Repr

/-- lxcResource.Read from lxc_resource.go (lines 400-450): with an unknown
tracked id the remote block is skipped and the state is set unchanged;
otherwise the guests are listed (an error surfaces), an absent id removes
the resource from tracked state, and a present id refreshes the model with
every state-mask bit set. -/
def lxcRead (state : lxcResourceModel) (listResp : Except String (List Int))
    (env : LxcReadEnv) : ReadOutcome lxcResourceModel :=
  if state.vmid = TF.unknown then .updated state
  else
    let vmid := tfValueD state.vmid 0
    match listResp with
    | .error m => .errored m
    | .ok ids =>
      if vmid ∈ ids then
        match UpdateLXCResourceModelFromAPI vmid env state LXCStateEverything with
        | .error m => .errored m
        | .ok st => .updated st
      else .removed

/-- vmResource.Read from vm_resource.go (lines 587-637): same shape as
lxcRead over the VM model and reader. -/
def vmRead (state : vmResourceModel) (listResp : Except String (List Int))
    (env : VmReadEnv) : ReadOutcome vmResourceModel :=
  if state.vmid = TF.unknown then .updated state
  else
    let vmid := tfValueD state.vmid 0
    match listResp with
    | .error m => .errored m
    | .ok ids =>
      if vmid ∈ ids then
        match UpdateVMResourceModelFromAPI env state VMStateEverything with
        | .error m => .errored m
        | .ok st => .updated st
      else .removed

/-- A concrete LXC model for exercising the reader. -/
def lxcModelW : lxcResourceModel where
  node := .val "pve"
  vmid := .val 100
  status := .val "running"
  ostemplate := .val "local:vztmpl/alpine.tar.xz"
  unprivileged := .val false
  ostype := .null
  hostname := .null
  password := .val "hunter2"
  sshPublicKeys := .null
  rootFs := .null
  net := .null

/-- A concrete LXC read environment. -/
def lxcReadEnvW : LxcReadEnv where
  configResp := .ok { osType := "alpine", hostname := "ct1", unprivileged := false,
                      rootFs := [], networks := [] }
  vmrNode := "pve"
  stateStatus := .ok (some (.str "running"))

/-- A concrete VM model for exercising the reader. -/
def vmModelW : vmResourceModel where
  node := .val "pve"
  vmid := .val 100
  name := .null
  description := .null
  status := .val "running"
  agent := .val false
  clone := .val "template-vm"
  sockets := .val 1
  cores := .val 1
  memory := .val 16
  ipv4Address := .null
  net := .null
  virtio := List.replicate 16 .null
  ide := List.replicate 4 .null

/-- A concrete VM read environment. -/
def vmReadEnvW : VmReadEnv where
  configResp := .ok { node := "pve", vmID := 100, name := "wall-e", description := "",
                      agent := 0, qemuSockets := 1, qemuCores := 1, memory := 16,
                      qemuNetworks := [], disks := none }
  stateStatus := .ok (some (.str "stopped"))
  agentQuery := fun _ => .err "500 QEMU guest agent is not running"
  pollFuel := 0

/-- A concrete query sequence: the agent is not yet running on the first
query, and the second query fails with an unrelated error. -/
def pollQueryW : Nat → AgentQueryResult :=
  fun n => if n = 0 then .err "500 QEMU guest agent is not running"
           else .err "connection refused"

/-- A concrete disk model: a 30 gigabyte raw disk on storage local-lvm. -/
def virtioModelW : virtioModel where
  media := .val "disk"
  format := .val "raw"
  size := .val 30
  storage := .val "local-lvm"

/-- A concrete remote disk of 1536*1024 kibibytes (one and a half
gibibytes, not a whole number of gigabytes). -/
def virtioRemoteW : QemuVirtIOStorage where
  disk := { format := "raw", storage := "local-lvm", sizeInKibibytes := 1536 * 1024 }

/-- Calls produced by the move and resize passes are move or resize calls,
never a bulk delete or bulk create call. -/
theorem lxcMoveResize_no_bulk (prevDisks newDisks : QemuDevices) :
    ∀ c ∈ lxcMoveResizeCalls prevDisks newDisks,
      isDeleteCall c = false ∧ isCreateCall c = false := by
  intro c hc
  unfold lxcMoveResizeCalls at hc
  rw [List.mem_flatMap] at hc
  obtain ⟨p, -, hmem⟩ := hc
  rcases hq : devsGet newDisks p.1 with - | nd <;> rw [hq] at hmem
  · simp at hmem
  · simp only [List.mem_append] at hmem
    rcases hmem with h | h
    · rcases hs : devGet nd "storage" with - | v <;> rw [hs] at h
      · simp at h
      · rcases v with s | n
        · simp only [ne_eq, List.mem_ite_nil_right, List.mem_singleton] at h
          obtain ⟨-, rfl⟩ := h
          exact ⟨rfl, rfl⟩
        · simp at h
    · unfold processDiskResize at h
      rcases hz : devGet nd "size" with - | v <;> rw [hz] at h
      · simp at h
      · simp only [ne_eq, List.mem_ite_nil_right, List.mem_singleton] at h
        obtain ⟨-, rfl⟩ := h
        exact ⟨rfl, rfl⟩

/-- Filtering the move/resize calls for bulk delete calls gives nothing. -/
theorem lxcMoveResize_filter_delete (prevDisks newDisks : QemuDevices) :
    (lxcMoveResizeCalls prevDisks newDisks).filter isDeleteCall = [] :=
  List.filter_eq_nil_iff.mpr fun c hc => by
    simp [(lxcMoveResize_no_bulk prevDisks newDisks c hc).1]

/-- Filtering the move/resize calls for bulk create calls gives nothing. -/
theorem lxcMoveResize_filter_create (prevDisks newDisks : QemuDevices) :
    (lxcMoveResizeCalls prevDisks newDisks).filter isCreateCall = [] :=
  List.filter_eq_nil_iff.mpr fun c hc => by
    simp [(lxcMoveResize_no_bulk prevDisks newDisks c hc).2]

/-- Filtering the move/resize calls for either kind of bulk call gives nothing. -/
theorem lxcMoveResize_filter_bulk (prevDisks newDisks : QemuDevices) :
    (lxcMoveResizeCalls prevDisks newDisks).filter
      (fun c => isDeleteCall c || isCreateCall c) = [] :=
  List.filter_eq_nil_iff.mpr fun c hc => by
    have h := lxcMoveResize_no_bulk prevDisks newDisks c hc
    simp [h.1, h.2]

/-- C1: the delete pass of applyLxcDiskChanges can name the protected root
slot "rootfs" in its bulk delete call: with a previous disk set holding a
root volume at key 0 and an empty desired set, the issued trace is a bulk
delete naming exactly "rootfs" followed by the configuration re-read.  The
guard in the source checks the slot name of the desired counterpart instead
of the previous disk, so it cannot protect a previous root disk whose key is
absent from the desired set, contradicting the comment in the source that
the root filesystem cannot be deleted. -/
theorem applyLxcDiskChanges_deletes_rootfs_failing_input :
    applyLxcDiskChanges [(0, [("volume", GoVal.str "local-lvm:8")])] [] =
      [LxcCall.setConfigDelete ["rootfs"], LxcCall.getConfig] := by
  rfl

/-- C2 counterexample: when both the previous and the desired set hold the
root slot at key 0 with different backing volumes, the claimed marking
condition (different backing volume, with no root-slot exception) says the
slot is marked for deletion, yet the code does not mark it and issues no
delete call at all: the root-slot exception is missing from the claim. -/
theorem lxcDeleteClaim_rootfs_exception_counterexample :
    claimedDeleteCond [(0, [("volume", GoVal.str "b:1")])] 0 [("volume", GoVal.str "a:1")] = true ∧
    lxcDeleteMarked [(0, [("volume", GoVal.str "b:1")])] 0 [("volume", GoVal.str "a:1")] = false ∧
    applyLxcDiskChanges [(0, [("volume", GoVal.str "a:1")])] [(0, [("volume", GoVal.str "b:1")])] =
      [LxcCall.getConfig] :=
  ⟨rfl, rfl, rfl⟩

/-- C2 (amended): a previous slot is marked for deletion iff the claimed
condition holds (no counterpart at the same key, or the counterpart
specifies a different non-empty backing volume, or a different positional
slot value) and additionally the desired counterpart is not the protected
root slot; all marked slots are issued in one bulk delete call (the only
delete call of the trace, naming exactly the marked slots), and among the
bulk calls of the trace every delete call precedes every create call. -/
theorem lxc_delete_pass_amended :
    (∀ (newDisks : QemuDevices) (key : Int) (prevDisk : QemuDevice),
       lxcDeleteMarked newDisks key prevDisk =
         (claimedDeleteCond newDisks key prevDisk && !counterpartIsRootfs newDisks key)) ∧
    (∀ prevDisks newDisks : QemuDevices,
       (applyLxcDiskChanges prevDisks newDisks).filter isDeleteCall =
         (if (lxcDeleteKeys prevDisks newDisks).isEmpty then []
          else [LxcCall.setConfigDelete (lxcDeleteKeys prevDisks newDisks)]) ∧
       (applyLxcDiskChanges prevDisks newDisks).filter
           (fun c => isDeleteCall c || isCreateCall c) =
         (applyLxcDiskChanges prevDisks newDisks).filter isDeleteCall ++
           (applyLxcDiskChanges prevDisks newDisks).filter isCreateCall) := by
  constructor
  · intro newDisks key prevDisk
    unfold lxcDeleteMarked claimedDeleteCond counterpartIsRootfs
    cases devsGet newDisks key with
    | none => rfl
    | some nd =>
      by_cases hr : diskSlotName nd = "rootfs" <;> simp [hr]
  · intro prevDisks newDisks
    constructor
    · unfold applyLxcDiskChanges
      rw [List.filter_append, List.filter_append, List.filter_append,
        lxcMoveResize_filter_delete]
      by_cases h1 : (lxcDeleteKeys prevDisks newDisks).isEmpty <;>
        by_cases h2 : (lxcCreateParams prevDisks newDisks).isEmpty <;>
          simp [h1, h2, isDeleteCall, List.filter]
    · unfold applyLxcDiskChanges
      rw [List.filter_append, List.filter_append, List.filter_append,
        lxcMoveResize_filter_bulk, List.filter_append, List.filter_append,
        List.filter_append, lxcMoveResize_filter_delete, List.filter_append,
        List.filter_append, List.filter_append, lxcMoveResize_filter_create]
      by_cases h1 : (lxcDeleteKeys prevDisks newDisks).isEmpty <;>
        by_cases h2 : (lxcCreateParams prevDisks newDisks).isEmpty <;>
          simp [h1, h2, isDeleteCall, isCreateCall, List.filter]

/-- C3: an already-exists rejection of a create (or clone) attempt restarts
the whole Create with a freshly allocated id exactly when the planned id was
unknown (auto-assigned); with a user-supplied id the same rejection surfaces
as an error after that single attempt and is never retried.  Stated for the
LXC loop, the direct VM loop and the VM clone loop: the failing conjuncts
show a collision with an explicit id surfacing immediately, the stepping
conjuncts show a collision with an auto-assigned id continuing the loop at
the next attempt (whose id is the next allocator response), and the success
conjunct shows a successful attempt creating with the allocator's id. -/
theorem create_id_collision_retry_policy :
    (∀ (env : LxcCreateEnv) (pid : Int) (fuel attempt : Nat) (msg : String),
       env.createResp attempt = .err (.collision msg) →
       lxcCreateLoop (some pid) env (fuel + 1) attempt = some (.failed msg (attempt + 1))) ∧
    (∀ (env : LxcCreateEnv) (fuel attempt : Nat) (msg : String) (i : Int),
       env.nextIdResp attempt = .ok i →
       env.createResp attempt = .err (.collision msg) →
       lxcCreateLoop none env (fuel + 1) attempt = lxcCreateLoop none env fuel (attempt + 1)) ∧
    (∀ (env : LxcCreateEnv) (fuel attempt : Nat) (i : Int),
       env.nextIdResp attempt = .ok i →
       env.createResp attempt = .ok →
       lxcCreateLoop none env (fuel + 1) attempt = some (.created i (attempt + 1))) ∧
    (∀ (env : VmCreateEnv) (pid : Int) (fuel attempt : Nat) (msg : String),
       env.createResp attempt = .err (.collision msg) →
       vmCreateLoop (some pid) none env (fuel + 1) attempt = some (.failed msg (attempt + 1))) ∧
    (∀ (env : VmCreateEnv) (fuel attempt : Nat) (msg : String) (i : Int),
       env.nextIdResp attempt = .ok i →
       env.createResp attempt = .err (.collision msg) →
       vmCreateLoop none none env (fuel + 1) attempt =
         vmCreateLoop none none env fuel (attempt + 1)) ∧
    (∀ (env : VmCreateEnv) (pid src : Int) (c : String) (fuel attempt : Nat) (msg : String),
       resolveCloneSource c env = .ok src →
       env.cloneResp attempt = .err (.collision msg) →
       vmCreateLoop (some pid) (some c) env (fuel + 1) attempt =
         some (.failed msg (attempt + 1))) ∧
    (∀ (env : VmCreateEnv) (src : Int) (c : String) (fuel attempt : Nat) (msg : String)
       (i : Int),
       env.nextIdResp attempt = .ok i →
       resolveCloneSource c env = .ok src →
       env.cloneResp attempt = .err (.collision msg) →
       vmCreateLoop none (some c) env (fuel + 1) attempt =
         vmCreateLoop none (some c) env fuel (attempt + 1)) := by
  refine ⟨?_, ?_, ?_, ?_, ?_, ?_, ?_⟩
  · intro env pid fuel attempt msg h
    simp [lxcCreateLoop, getIDToUse, h]
  · intro env fuel attempt msg i hi h
    simp [lxcCreateLoop, getIDToUse, hi, h]
  · intro env fuel attempt i hi h
    simp [lxcCreateLoop, getIDToUse, hi, h]
  · intro env pid fuel attempt msg h
    simp [vmCreateLoop, getIDToUse, h]
  · intro env fuel attempt msg i hi h
    simp [vmCreateLoop, getIDToUse, hi, h]
  · intro env pid src c fuel attempt msg hsrc h
    simp [vmCreateLoop, getIDToUse, hsrc, h]
  · intro env src c fuel attempt msg i hi hsrc h
    simp [vmCreateLoop, getIDToUse, hi, hsrc, h]

/-- C3 witness: with an explicit id 100 the first collision surfaces as an
error after one attempt; with an auto-assigned id the loop retries and
creates with the freshly allocated id 101 on the second attempt. -/
theorem create_id_collision_retry_policy_witness :
    lxcCreateLoop (some 100) lxcEnvW 1 0 = some (.failed "CT 100 already exists" 1) ∧
    lxcCreateLoop none lxcEnvW 2 0 = some (.created 101 2) := by
  constructor
  · exact create_id_collision_retry_policy.1 lxcEnvW 100 0 0 "CT 100 already exists" rfl
  · have h1 := create_id_collision_retry_policy.2.1 lxcEnvW 1 0 "CT 100 already exists" 100
      rfl rfl
    have h2 := create_id_collision_retry_policy.2.2.1 lxcEnvW 0 1 101 rfl rfl
    exact h1.trans h2

/-- With an auto-assigned id, successful allocation and a collision on every
attempt, the LXC create loop never terminates within any amount of fuel. -/
theorem lxcCreateLoop_all_collisions_none (env : LxcCreateEnv)
    (hid : ∀ n, ∃ i, env.nextIdResp n = .ok i)
    (hc : ∀ n, ∃ m, env.createResp n = .err (.collision m)) :
    ∀ fuel attempt, lxcCreateLoop none env fuel attempt = none := by
  intro fuel
  induction fuel with
  | zero => intro attempt; rfl
  | succ k ih =>
    intro attempt
    obtain ⟨i, hi⟩ := hid attempt
    obtain ⟨m, hm⟩ := hc attempt
    simp [lxcCreateLoop, getIDToUse, hi, hm, ih]

/-- With an auto-assigned id, successful allocation and a collision on every
direct create attempt, the VM create loop never terminates. -/
theorem vmCreateLoop_all_collisions_none (env : VmCreateEnv)
    (hid : ∀ n, ∃ i, env.nextIdResp n = .ok i)
    (hc : ∀ n, ∃ m, env.createResp n = .err (.collision m)) :
    ∀ fuel attempt, vmCreateLoop none none env fuel attempt = none := by
  intro fuel
  induction fuel with
  | zero => intro attempt; rfl
  | succ k ih =>
    intro attempt
    obtain ⟨i, hi⟩ := hid attempt
    obtain ⟨m, hm⟩ := hc attempt
    simp [vmCreateLoop, getIDToUse, hi, hm, ih]

/-- With an auto-assigned id, a resolvable clone source and a collision on
every clone attempt, the VM clone loop never terminates. -/
theorem vmCloneLoop_all_collisions_none (env : VmCreateEnv) (c : String)
    (hid : ∀ n, ∃ i, env.nextIdResp n = .ok i)
    (hs : ∃ src, resolveCloneSource c env = .ok src)
    (hc : ∀ n, ∃ m, env.cloneResp n = .err (.collision m)) :
    ∀ fuel attempt, vmCreateLoop none (some c) env fuel attempt = none := by
  intro fuel
  induction fuel with
  | zero => intro attempt; rfl
  | succ k ih =>
    intro attempt
    obtain ⟨i, hi⟩ := hid attempt
    obtain ⟨src, hsrc⟩ := hs
    obtain ⟨m, hm⟩ := hc attempt
    simp [vmCreateLoop, getIDToUse, hi, hsrc, hm, ih]

/-- C4 counterexample: for the concrete response sequence in which every
creation attempt is rejected with an already-exists collision (and ids keep
being allocated successfully), no attempt bound exists after which the LXC
create loop has terminated: the retry loop of the source is unbounded. -/
theorem create_retry_bound_counterexample :
    ¬ ∃ N : Nat, (lxcCreateLoop none collideEnv N 0).isSome := by
  rintro ⟨N, h⟩
  rw [lxcCreateLoop_all_collisions_none collideEnv (fun n => ⟨100 + n, rfl⟩)
    (fun _ => ⟨"CT already exists", rfl⟩) N 0] at h
  simp at h

/-- C4 (amended): the auto-assigned-id collision retry in Create is not
bounded: for every response sequence in which id allocation succeeds and
each creation (or clone) attempt is rejected with an already-exists
collision, the create loop never terminates and no error is ever surfaced,
whatever amount of fuel it is run with. -/
theorem create_retry_unbounded :
    (∀ (env : LxcCreateEnv),
       (∀ n, ∃ i, env.nextIdResp n = .ok i) →
       (∀ n, ∃ m, env.createResp n = .err (.collision m)) →
       ∀ fuel attempt, lxcCreateLoop none env fuel attempt = none) ∧
    (∀ (env : VmCreateEnv),
       (∀ n, ∃ i, env.nextIdResp n = .ok i) →
       (∀ n, ∃ m, env.createResp n = .err (.collision m)) →
       ∀ fuel attempt, vmCreateLoop none none env fuel attempt = none) ∧
    (∀ (env : VmCreateEnv) (c : String),
       (∀ n, ∃ i, env.nextIdResp n = .ok i) →
       (∃ src, resolveCloneSource c env = .ok src) →
       (∀ n, ∃ m, env.cloneResp n = .err (.collision m)) →
       ∀ fuel attempt, vmCreateLoop none (some c) env fuel attempt = none) :=
  ⟨lxcCreateLoop_all_collisions_none, vmCreateLoop_all_collisions_none,
   vmCloneLoop_all_collisions_none⟩

/-- C4 witness: the unbounded-retry theorem applied to the all-collisions
environment at fuel 7. -/
theorem create_retry_unbounded_witness :
    lxcCreateLoop none collideEnv 7 0 = none :=
  create_retry_unbounded.1 collideEnv (fun n => ⟨100 + n, rfl⟩)
    (fun _ => ⟨"CT already exists", rfl⟩) 7 0

/-- C5: when the guest listing succeeds and the tracked id is absent from it,
both Delete implementations return successfully having issued only the
listing call: no stop and no delete call reaches the remote platform. -/
theorem delete_absent_guest_idempotent :
    (∀ (vmid : Int) (env : LxcDeleteEnv) (ids : List Int),
       env.listResp = .ok ids → vmid ∉ ids →
       lxcDelete vmid env = (.ok, [.listGuests])) ∧
    (∀ (vmid : Int) (env : VmDeleteEnv) (ids : List Int),
       env.listResp = .ok ids → vmid ∉ ids →
       vmDelete vmid env = (.ok, [.listGuests])) := by
  constructor
  · intro vmid env ids hl habs
    simp [lxcDelete, hl, habs]
  · intro vmid env ids hl habs
    simp [vmDelete, hl, habs]

/-- C5 witness: deleting the absent guest 100 in both concrete environments
succeeds after only the listing call. -/
theorem delete_absent_guest_idempotent_witness :
    lxcDelete 100 lxcDelEnvW = (.ok, [.listGuests]) ∧
    vmDelete 100 vmDelEnvW = (.ok, [.listGuests]) :=
  ⟨delete_absent_guest_idempotent.1 100 lxcDelEnvW [101, 205] rfl (by decide),
   delete_absent_guest_idempotent.2 100 vmDelEnvW [101, 205] rfl (by decide)⟩

/-- C6 counterexample: vmResource.Delete issues a stop call for an existing
guest whose status is "stopped" (it never queries the status at all), so the
claimed stop-iff-running equivalence fails on the VM implementation. -/
theorem vm_delete_stops_stopped_guest_counterexample :
    vmDelStoppedEnv.status = "stopped" ∧
    vmDelete 100 vmDelStoppedEnv = (.ok, [.listGuests, .stopVm, .deleteVm]) :=
  ⟨rfl, rfl⟩

/-- C6 (amended): for an existing guest, lxcResource.Delete issues a stop
call before the delete call if and only if the observed status is "running"
(a stopped container is deleted with no preceding stop call), while
vmResource.Delete always issues a stop call before the delete call,
regardless of the guest's status. -/
theorem delete_stop_before_delete_policy :
    (∀ (vmid : Int) (env : LxcDeleteEnv) (ids : List Int) (status : String),
       env.listResp = .ok ids → vmid ∈ ids →
       env.stateStatus = .ok (some (.str status)) →
       env.stopResp = .ok () → env.deleteResp = .ok () →
       lxcDelete vmid env =
         (.ok, if status = "running" then [.listGuests, .getState, .stopVm, .deleteVm]
               else [.listGuests, .getState, .deleteVm])) ∧
    (∀ (vmid : Int) (env : VmDeleteEnv) (ids : List Int),
       env.listResp = .ok ids → vmid ∈ ids →
       env.stopResp = .ok () → env.deleteResp = .ok () →
       vmDelete vmid env = (.ok, [.listGuests, .stopVm, .deleteVm])) := by
  constructor
  · intro vmid env ids status hl hmem hst hstop hdel
    by_cases hr : status = "running" <;>
      simp [lxcDelete, hl, hmem, hst, hstop, hdel, hr]
  · intro vmid env ids hl hmem hstop hdel
    simp [vmDelete, hl, hmem, hstop, hdel]

/-- C6 witness: the amended policy applied to concrete stopped and running
containers and to a concrete existing VM. -/
theorem delete_stop_before_delete_policy_witness :
    lxcDelete 100 lxcDelStoppedEnv = (.ok, [.listGuests, .getState, .deleteVm]) ∧
    lxcDelete 100 lxcDelRunningEnv =
      (.ok, [.listGuests, .getState, .stopVm, .deleteVm]) ∧
    vmDelete 100 vmDelStoppedEnv = (.ok, [.listGuests, .stopVm, .deleteVm]) := by
  refine ⟨?_, ?_, ?_⟩
  · exact delete_stop_before_delete_policy.1 100 lxcDelStoppedEnv [100] "stopped"
      rfl (by decide) rfl rfl rfl
  · exact delete_stop_before_delete_policy.1 100 lxcDelRunningEnv [100] "running"
      rfl (by decide) rfl rfl rfl
  · exact delete_stop_before_delete_policy.2 100 vmDelStoppedEnv [100] rfl (by decide) rfl rfl

/-- With the config bit clear, the LXC configuration fetch yields nothing. -/
theorem lxcConfigOpt_bit0 (env : LxcReadEnv) (sm : Nat) (h : sm &&& LXCStateConfig = 0) :
    lxcConfigOpt env sm = .ok none := by
  simp [lxcConfigOpt, h]

/-- With the config bit set, a successful LXC configuration fetch carries
the configuration the environment answered. -/
theorem lxcConfigOpt_some (env : LxcReadEnv) (sm : Nat) (config? : Option ConfigLxc)
    (hb : sm &&& LXCStateConfig ≠ 0) (h : lxcConfigOpt env sm = .ok config?) :
    ∃ c, config? = some c ∧ env.configResp = .ok c := by
  unfold lxcConfigOpt at h
  rw [if_pos hb] at h
  rcases hr : env.configResp with e | c <;> rw [hr] at h <;> simp [Except.map] at h
  exact ⟨c, h.symm, rfl⟩

/-- With the status bit clear, the LXC status fetch yields nothing. -/
theorem lxcStatusOpt_bit0 (env : LxcReadEnv) (sm : Nat) (h : sm &&& LXCStateStatus = 0) :
    lxcStatusOpt env sm = .ok none := by
  simp [lxcStatusOpt, h]

/-- With the status bit set, a successful LXC status fetch carries the
validated status string. -/
theorem lxcStatusOpt_some (env : LxcReadEnv) (sm : Nat) (status? : Option String)
    (hb : sm &&& LXCStateStatus ≠ 0) (h : lxcStatusOpt env sm = .ok status?) :
    ∃ s, status? = some s ∧ statusFromState env.stateStatus = .ok s := by
  unfold lxcStatusOpt at h
  rw [if_pos hb] at h
  rcases hr : statusFromState env.stateStatus with e | s <;> rw [hr] at h <;>
    simp [Except.map] at h
  exact ⟨s, h.symm, rfl⟩

/-- A successful LXC read decomposes into its two fetches and the two
conditional field-group writes. -/
theorem UpdateLXC_ok_shape (vmid : Int) (env : LxcReadEnv) (model m2 : lxcResourceModel)
    (sm : Nat) (h : UpdateLXCResourceModelFromAPI vmid env model sm = .ok m2) :
    ∃ (config? : Option ConfigLxc) (status? : Option String),
      lxcConfigOpt env sm = .ok config? ∧ lxcStatusOpt env sm = .ok status? ∧
      m2 = (match status? with
            | some s =>
              { (match config? with
                 | some c => lxcApplyConfig vmid env.vmrNode c model
                 | none => model) with status := TF.val s }
            | none =>
              match config? with
              | some c => lxcApplyConfig vmid env.vmrNode c model
              | none => model) := by
  unfold UpdateLXCResourceModelFromAPI at h
  rcases hc : lxcConfigOpt env sm with e | config? <;> rw [hc] at h
  · simp at h
  · rcases hs : lxcStatusOpt env sm with e | status? <;> rw [hs] at h
    · simp at h
    · simp only [Except.ok.injEq] at h
      exact ⟨config?, status?, rfl, rfl, h.symm⟩

/-- With the config bit clear, the VM configuration fetch yields nothing. -/
theorem vmConfigOpt_bit0 (env : VmReadEnv) (sm : Nat) (h : sm &&& VMStateConfig = 0) :
    vmConfigOpt env sm = .ok none := by
  simp [vmConfigOpt, h]

/-- With the config bit set, a successful VM configuration fetch carries the
configuration the environment answered. -/
theorem vmConfigOpt_some (env : VmReadEnv) (sm : Nat) (config? : Option ConfigQemu)
    (hb : sm &&& VMStateConfig ≠ 0) (h : vmConfigOpt env sm = .ok config?) :
    ∃ c, config? = some c ∧ env.configResp = .ok c := by
  unfold vmConfigOpt at h
  rw [if_pos hb] at h
  rcases hr : env.configResp with e | c <;> rw [hr] at h <;> simp [Except.map] at h
  exact ⟨c, h.symm, rfl⟩

/-- With the status bit clear, the VM status fetch yields nothing. -/
theorem vmStatusOpt_bit0 (env : VmReadEnv) (sm : Nat) (h : sm &&& VMStateStatus = 0) :
    vmStatusOpt env sm = .ok none := by
  simp [vmStatusOpt, h]

/-- With the status bit set, a successful VM status fetch carries the
validated status string. -/
theorem vmStatusOpt_some (env : VmReadEnv) (sm : Nat) (status? : Option String)
    (hb : sm &&& VMStateStatus ≠ 0) (h : vmStatusOpt env sm = .ok status?) :
    ∃ s, status? = some s ∧ statusFromState env.stateStatus = .ok s := by
  unfold vmStatusOpt at h
  rw [if_pos hb] at h
  rcases hr : statusFromState env.stateStatus with e | s <;> rw [hr] at h <;>
    simp [Except.map] at h
  exact ⟨s, h.symm, rfl⟩

/-- A successful VM read decomposes into its three fetches and the three
conditional field-group writes. -/
theorem UpdateVM_ok_shape (env : VmReadEnv) (model m2 : vmResourceModel) (sm : Nat)
    (h : UpdateVMResourceModelFromAPI env model sm = .ok m2) :
    ∃ (config? : Option ConfigQemu) (status? : Option String) (ipv4 : String),
      vmConfigOpt env sm = .ok config? ∧ vmStatusOpt env sm = .ok status? ∧
      vmIpv4Opt env sm config? = .ok ipv4 ∧
      m2 = (let mA := match config? with
                      | some c => vmApplyConfig c model
                      | none => model
            let mB := match status? with
                      | some s => { mA with status := TF.val s }
                      | none => mA
            if sm &&& VMStateNet ≠ 0 then
              { mB with ipv4Address := if ipv4 ≠ "" then TF.val ipv4 else TF.null }
            else mB) := by
  unfold UpdateVMResourceModelFromAPI at h
  rcases hc : vmConfigOpt env sm with e | config? <;> rw [hc] at h
  · simp at h
  · dsimp only [] at h
    rcases hs : vmStatusOpt env sm with e | status? <;> rw [hs] at h
    · simp at h
    · dsimp only [] at h
      rcases hn : vmIpv4Opt env sm config? with e | ipv4 <;> rw [hn] at h
      · simp at h
      · simp only [Except.ok.injEq] at h
        exact ⟨config?, status?, ipv4, rfl, rfl, hn, h.symm⟩

/-- C7: the masked readers write exactly the field groups their mask bits
select and leave every other model field unchanged.  For each reader, the
first half states the frame: fields outside the selected groups (always the
carried LXC fields ostemplate/password/ssh keys and the VM clone field, and
each group when its bit is clear) keep the incoming model's values; the
second half states that the selected groups are genuinely written from the
remote responses: two reads of the same environment and mask agree on every
selected field whatever models they started from. -/
theorem state_mask_frame :
    (∀ (vmid : Int) (env : LxcReadEnv) (model m2 : lxcResourceModel) (sm : Nat),
       UpdateLXCResourceModelFromAPI vmid env model sm = .ok m2 →
       (m2.ostemplate = model.ostemplate ∧ m2.password = model.password ∧
        m2.sshPublicKeys = model.sshPublicKeys) ∧
       (sm &&& LXCStateConfig = 0 →
         m2.node = model.node ∧ m2.vmid = model.vmid ∧ m2.ostype = model.ostype ∧
         m2.hostname = model.hostname ∧ m2.unprivileged = model.unprivileged ∧
         m2.rootFs = model.rootFs ∧ m2.net = model.net) ∧
       (sm &&& LXCStateStatus = 0 → m2.status = model.status)) ∧
    (∀ (vmid : Int) (env : LxcReadEnv) (ma mb ra rb : lxcResourceModel) (sm : Nat),
       UpdateLXCResourceModelFromAPI vmid env ma sm = .ok ra →
       UpdateLXCResourceModelFromAPI vmid env mb sm = .ok rb →
       (sm &&& LXCStateConfig ≠ 0 →
         ra.node = rb.node ∧ ra.vmid = rb.vmid ∧ ra.ostype = rb.ostype ∧
         ra.hostname = rb.hostname ∧ ra.unprivileged = rb.unprivileged ∧
         ra.rootFs = rb.rootFs ∧ ra.net = rb.net) ∧
       (sm &&& LXCStateStatus ≠ 0 → ra.status = rb.status)) ∧
    (∀ (env : VmReadEnv) (model m2 : vmResourceModel) (sm : Nat),
       UpdateVMResourceModelFromAPI env model sm = .ok m2 →
       m2.clone = model.clone ∧
       (sm &&& VMStateConfig = 0 →
         m2.node = model.node ∧ m2.vmid = model.vmid ∧ m2.name = model.name ∧
         m2.description = model.description ∧ m2.agent = model.agent ∧
         m2.sockets = model.sockets ∧ m2.cores = model.cores ∧
         m2.memory = model.memory ∧ m2.net = model.net ∧
         m2.virtio = model.virtio ∧ m2.ide = model.ide) ∧
       (sm &&& VMStateStatus = 0 → m2.status = model.status) ∧
       (sm &&& VMStateNet = 0 → m2.ipv4Address = model.ipv4Address)) ∧
    (∀ (env : VmReadEnv) (ma mb ra rb : vmResourceModel) (sm : Nat),
       UpdateVMResourceModelFromAPI env ma sm = .ok ra →
       UpdateVMResourceModelFromAPI env mb sm = .ok rb →
       (sm &&& VMStateConfig ≠ 0 →
         ra.node = rb.node ∧ ra.vmid = rb.vmid ∧ ra.name = rb.name ∧
         ra.description = rb.description ∧ ra.agent = rb.agent ∧
         ra.sockets = rb.sockets ∧ ra.cores = rb.cores ∧ ra.memory = rb.memory ∧
         ra.net = rb.net ∧ ra.virtio = rb.virtio ∧ ra.ide = rb.ide) ∧
       (sm &&& VMStateStatus ≠ 0 → ra.status = rb.status) ∧
       (sm &&& VMStateNet ≠ 0 → ra.ipv4Address = rb.ipv4Address)) := by
  refine ⟨?_, ?_, ?_, ?_⟩
  · intro vmid env model m2 sm h
    obtain ⟨config?, status?, hc, hs, rfl⟩ := UpdateLXC_ok_shape vmid env model m2 sm h
    refine ⟨?_, ?_, ?_⟩
    · cases config? <;> cases status? <;> simp [lxcApplyConfig]
    · intro h0
      obtain rfl : config? = none :=
        (Except.ok.inj ((lxcConfigOpt_bit0 env sm h0).symm.trans hc)).symm
      cases status? <;> simp
    · intro h0
      obtain rfl : status? = none :=
        (Except.ok.inj ((lxcStatusOpt_bit0 env sm h0).symm.trans hs)).symm
      cases config? <;> simp [lxcApplyConfig]
  · intro vmid env ma mb ra rb sm h1 h2
    obtain ⟨ca, sa, hca, hsa, rfl⟩ := UpdateLXC_ok_shape vmid env ma ra sm h1
    obtain ⟨cb, sb, hcb, hsb, rfl⟩ := UpdateLXC_ok_shape vmid env mb rb sm h2
    obtain rfl : ca = cb := Except.ok.inj (hca.symm.trans hcb)
    obtain rfl : sa = sb := Except.ok.inj (hsa.symm.trans hsb)
    constructor
    · intro hb
      obtain ⟨c, rfl, -⟩ := lxcConfigOpt_some env sm ca hb hca
      cases sa <;> simp [lxcApplyConfig]
    · intro hb
      obtain ⟨s, rfl, -⟩ := lxcStatusOpt_some env sm sa hb hsa
      simp
  · intro env model m2 sm h
    obtain ⟨config?, status?, ipv4, hc, hs, hn, rfl⟩ := UpdateVM_ok_shape env model m2 sm h
    refine ⟨?_, ?_, ?_, ?_⟩
    · cases config? <;> cases status? <;> by_cases hb : sm &&& VMStateNet ≠ 0 <;>
        simp [vmApplyConfig, hb]
    · intro h0
      obtain rfl : config? = none :=
        (Except.ok.inj ((vmConfigOpt_bit0 env sm h0).symm.trans hc)).symm
      cases status? <;> by_cases hb : sm &&& VMStateNet ≠ 0 <;> simp [hb]
    · intro h0
      obtain rfl : status? = none :=
        (Except.ok.inj ((vmStatusOpt_bit0 env sm h0).symm.trans hs)).symm
      cases config? <;> by_cases hb : sm &&& VMStateNet ≠ 0 <;> simp [vmApplyConfig, hb]
    · intro h0
      cases config? <;> cases status? <;> simp [vmApplyConfig, h0]
  · intro env ma mb ra rb sm h1 h2
    obtain ⟨ca, sa, ia, hca, hsa, hna, rfl⟩ := UpdateVM_ok_shape env ma ra sm h1
    obtain ⟨cb, sb, ib, hcb, hsb, hnb, rfl⟩ := UpdateVM_ok_shape env mb rb sm h2
    obtain rfl : ca = cb := Except.ok.inj (hca.symm.trans hcb)
    obtain rfl : sa = sb := Except.ok.inj (hsa.symm.trans hsb)
    obtain rfl : ia = ib := Except.ok.inj (hna.symm.trans hnb)
    refine ⟨?_, ?_, ?_⟩
    · intro hb
      obtain ⟨c, rfl, -⟩ := vmConfigOpt_some env sm ca hb hca
      cases sa <;> by_cases hb2 : sm &&& VMStateNet ≠ 0 <;> simp [vmApplyConfig, hb2]
    · intro hb
      obtain ⟨s, rfl, -⟩ := vmStatusOpt_some env sm sa hb hsa
      cases ca <;> by_cases hb2 : sm &&& VMStateNet ≠ 0 <;> simp [hb2]
    · intro hb
      cases ca <;> cases sa <;> simp [vmApplyConfig, hb]

/-- C7 witness: running both readers with only the status bit set refreshes
the status and leaves a carried field, an unselected configuration field and
the unselected address field at the incoming model's values. -/
theorem state_mask_frame_witness :
    ({ lxcModelW with status := TF.val "running" } : lxcResourceModel).password
        = lxcModelW.password ∧
    ({ lxcModelW with status := TF.val "running" } : lxcResourceModel).node
        = lxcModelW.node ∧
    ({ vmModelW with status := TF.val "stopped" } : vmResourceModel).clone
        = vmModelW.clone ∧
    ({ vmModelW with status := TF.val "stopped" } : vmResourceModel).ipv4Address
        = vmModelW.ipv4Address := by
  have hl : UpdateLXCResourceModelFromAPI 100 lxcReadEnvW lxcModelW LXCStateStatus
      = .ok { lxcModelW with status := TF.val "running" } := rfl
  have hv : UpdateVMResourceModelFromAPI vmReadEnvW vmModelW VMStateStatus
      = .ok { vmModelW with status := TF.val "stopped" } := rfl
  refine ⟨(state_mask_frame.1 100 lxcReadEnvW lxcModelW _ LXCStateStatus hl).1.2.1,
    ((state_mask_frame.1 100 lxcReadEnvW lxcModelW _ LXCStateStatus hl).2.1 (by decide)).1,
    (state_mask_frame.2.2.1 vmReadEnvW vmModelW _ VMStateStatus hv).1,
    (state_mask_frame.2.2.1 vmReadEnvW vmModelW _ VMStateStatus hv).2.2.2 (by decide)⟩

/-- C8: when the tracked id is known and the successful guest listing does
not contain it, both Read implementations remove the resource from tracked
state (and in particular surface no error). -/
theorem read_absent_guest_removes_state :
    (∀ (state : lxcResourceModel) (ids : List Int) (env : LxcReadEnv) (v : Int),
       state.vmid = TF.val v → v ∉ ids →
       lxcRead state (.ok ids) env = .removed) ∧
    (∀ (state : vmResourceModel) (ids : List Int) (env : VmReadEnv) (v : Int),
       state.vmid = TF.val v → v ∉ ids →
       vmRead state (.ok ids) env = .removed) := by
  constructor
  · intro state ids env v hv habs
    simp [lxcRead, hv, tfValueD, habs]
  · intro state ids env v hv habs
    simp [vmRead, hv, tfValueD, habs]

/-- C8 witness: reading tracked id 100 against a guest list lacking it
removes the resource, for both concrete models. -/
theorem read_absent_guest_removes_state_witness :
    lxcRead lxcModelW (.ok [101, 205]) lxcReadEnvW = .removed ∧
    vmRead vmModelW (.ok [101, 205]) vmReadEnvW = .removed :=
  ⟨read_absent_guest_removes_state.1 lxcModelW [101, 205] lxcReadEnvW 100 rfl (by decide),
   read_absent_guest_removes_state.2 vmModelW [101, 205] vmReadEnvW 100 rfl (by decide)⟩

/-- C9: the poll distinguishes its three outcomes: a query answered with an
agent-not-running error continues the loop at the next attempt (after the
fixed sleep), any other query error aborts immediately with exactly that
error, and exhausted fuel (the overall deadline) yields the distinct timeout
result, which is not the found-address result for any address (in
particular not an empty one). -/
theorem guest_address_poll_outcomes :
    (∀ (query : Nat → AgentQueryResult) (mac : String) (fuel n : Nat) (m : String),
       query n = .err m → agentNotRunningErr m = true →
       pollLoop query mac (fuel + 1) n = pollLoop query mac fuel (n + 1)) ∧
    (∀ (query : Nat → AgentQueryResult) (mac : String) (fuel n : Nat) (m : String),
       query n = .err m → agentNotRunningErr m = false →
       pollLoop query mac (fuel + 1) n = .fatal m) ∧
    (∀ (query : Nat → AgentQueryResult) (mac : String) (n : Nat),
       pollLoop query mac 0 n = .timeout) ∧
    (∀ ip : String, PollResult.timeout ≠ PollResult.found ip) := by
  refine ⟨?_, ?_, ?_, ?_⟩
  · intro query mac fuel n m hq hr
    simp [pollLoop, hq, hr]
  · intro query mac fuel n m hq hr
    simp [pollLoop, hq, hr]
  · intro query mac n
    rfl
  · intro ip h
    exact PollResult.noConfusion h

/-- C9 witness: with that sequence the poll retries past the first response
and aborts on the second with its error, and zero fuel times out. -/
theorem guest_address_poll_outcomes_witness :
    pollLoop pollQueryW "aa:bb:cc:dd:ee:ff" 2 0 = .fatal "connection refused" ∧
    pollLoop pollQueryW "aa:bb:cc:dd:ee:ff" 0 0 = .timeout := by
  constructor
  · have h1 := guest_address_poll_outcomes.1 pollQueryW "aa:bb:cc:dd:ee:ff" 1 0
      "500 QEMU guest agent is not running" rfl (by decide)
    have h2 := guest_address_poll_outcomes.2.1 pollQueryW "aa:bb:cc:dd:ee:ff" 0 1
      "connection refused" rfl (by decide)
    exact h1.trans h2
  · exact guest_address_poll_outcomes.2.2.1 pollQueryW "aa:bb:cc:dd:ee:ff" 0

/-- C10: translating a disk model (media "disk", known whole-gigabyte size,
known format and storage) to the remote kibibyte representation and reading
it back is the identity on the media, format, size and storage fields;
conversely, a remote kibibyte size that is not a whole multiple of
1024*1024 is floored on read, so writing the read-back model yields a
strictly smaller (hence different) kibibyte size than the original. -/
theorem virtio_disk_size_roundtrip :
    (∀ (m : virtioModel) (g : Nat) (f st : String),
       m.media = TF.val "disk" → m.size = TF.val g → m.format = TF.val f →
       m.storage = TF.val st →
       (virtioModel.readFromAPIConfig (virtioModel.writeToAPIConfig m)).media = m.media ∧
       (virtioModel.readFromAPIConfig (virtioModel.writeToAPIConfig m)).format = m.format ∧
       (virtioModel.readFromAPIConfig (virtioModel.writeToAPIConfig m)).size = m.size ∧
       (virtioModel.readFromAPIConfig (virtioModel.writeToAPIConfig m)).storage = m.storage) ∧
    (∀ c : QemuVirtIOStorage, ¬ (1024 * 1024 ∣ c.disk.sizeInKibibytes) →
       (virtioModel.writeToAPIConfig
           (virtioModel.readFromAPIConfig c)).disk.sizeInKibibytes
         ≠ c.disk.sizeInKibibytes ∧
       (virtioModel.writeToAPIConfig
           (virtioModel.readFromAPIConfig c)).disk.sizeInKibibytes
         < c.disk.sizeInKibibytes) := by
  constructor
  · intro m g f st hm hs hf hst
    have hgv : g * 1024 * 1024 / (1024 * 1024) = g := by
      rw [mul_assoc]
      exact Nat.mul_div_cancel g (by norm_num)
    simp [virtioModel.readFromAPIConfig, virtioModel.writeToAPIConfig, tfValueD,
      hm, hs, hf, hst, hgv]
  · intro c hdvd
    have hne : c.disk.sizeInKibibytes / (1024 * 1024) * 1024 * 1024
        ≠ c.disk.sizeInKibibytes := by
      intro he
      refine hdvd ⟨c.disk.sizeInKibibytes / (1024 * 1024), ?_⟩
      conv_lhs => rw [← he]
      ring
    have hle : c.disk.sizeInKibibytes / (1024 * 1024) * 1024 * 1024
        ≤ c.disk.sizeInKibibytes := by
      rw [mul_assoc]
      exact Nat.div_mul_le_self _ _
    have hmain : (virtioModel.writeToAPIConfig
        (virtioModel.readFromAPIConfig c)).disk.sizeInKibibytes
        = c.disk.sizeInKibibytes / (1024 * 1024) * 1024 * 1024 := rfl
    rw [hmain]
    exact ⟨hne, lt_of_le_of_ne hle hne⟩

/-- C10 witness: the identity round trip at the concrete 30 gigabyte model
and the strict size loss at the concrete fractional remote disk. -/
theorem virtio_disk_size_roundtrip_witness :
    (virtioModel.readFromAPIConfig (virtioModel.writeToAPIConfig virtioModelW)).size
        = virtioModelW.size ∧
    (virtioModel.writeToAPIConfig
        (virtioModel.readFromAPIConfig virtioRemoteW)).disk.sizeInKibibytes
      ≠ virtioRemoteW.disk.sizeInKibibytes :=
  ⟨(virtio_disk_size_roundtrip.1 virtioModelW 30 "raw" "local-lvm"
      rfl rfl rfl rfl).2.2.1,
   (virtio_disk_size_roundtrip.2 virtioRemoteW (by decide)).1⟩
